import Mathlib

/-!
Shallow embedding of the content-analyzer service:
  * `src/api/ml_logic.py` — the Model Host: model loading, readiness query,
    summarization and keyword extraction with sentinel-string error handling;
  * `src/api/main.py` — the Request Gateway: the FastAPI endpoints that gate
    on readiness and translate sentinel strings into HTTP status codes.

Python exceptions raised by the external libraries (transformers / yake) are
modelled by the `PyOutcome` type: a call either returns a value or raises an
exception carrying its type name.  Python functions that catch all exceptions
and return data are total Lean functions.  Module-level global state
(`summarization_pipeline_tf`, `kw_extractor`) is an explicit `HostState`
record threaded through the functions that read or write it.
-/

namespace ContentAnalyzer

/-- Result of calling a Python callable: either a normal return value or a
raised exception, identified by its type name (`type(e).__name__`). -/
inductive PyOutcome (α : Type) : Type where
  | ok (val : α)
  | raises (excTypeName : String)

/-- Behaviour of the transformers summarization pipeline: given the input
text and the `max_length` / `min_length` bounds it either yields the single
summary string `result[0]['summary_text']` or raises.  (Greedy decoding,
`do_sample=False`, is internal to this opaque callable.) -/
abbrev SummPipeline : Type := String → Int → Int → PyOutcome String

/-- Behaviour of `yake.KeywordExtractor.extract_keywords`: a list of
(keyword, score) pairs, or a raised exception.  Scores are modelled as
rationals; the code never inspects them. -/
abbrev KwBehavior : Type := String → PyOutcome (List (String × Rat))

/-- The YAKE keyword extractor object, carrying the configuration passed to
`yake.KeywordExtractor(lan=..., n=..., dedupLim=..., top=...)` together with
its extraction behaviour. -/
structure KwExtractor : Type where
  lan : String
  n : Nat
  dedupLim : Rat
  top : Nat
  extract_keywords : KwBehavior

/-- Configuration constants of `ml_logic.py`. -/
def SUMMARIZER_MODEL_NAME : String := "t5-small"

def YAKE_LANGUAGE : String := "en"

def YAKE_MAX_NGRAM_SIZE : Nat := 3

def YAKE_DEDUP_THRESHOLD : Rat := 9 / 10

def YAKE_NUM_KEYWORDS : Nat := 10

/-- The module-level globals `summarization_pipeline_tf` and `kw_extractor`,
both initially `None`. -/
structure HostState : Type where
  summarization_pipeline_tf : Option SummPipeline
  kw_extractor : Option KwExtractor

/-- The state at process start: both globals are `None`. -/
def initialState : HostState := ⟨none, none⟩

/-- The environment a `load_models` call runs in: the outcome of the
`pipeline(...)` construction and the outcome of the
`yake.KeywordExtractor(...)` construction (each may raise, e.g. if the model
download fails). -/
structure LoadEnv : Type where
  pipelineConstruction : PyOutcome SummPipeline
  extractorConstruction : PyOutcome KwBehavior

/-- Function `ml_logic.load_models`: if both globals are already set, return True
without touching them.  Otherwise construct the summarization pipeline, then
the YAKE extractor (with the module's configuration constants); on an
exception from either step, reset both globals to `None` and return False —
the exception is caught and not re-raised. -/
def load_models (env : LoadEnv) (st : HostState) : Bool × HostState :=
  if st.summarization_pipeline_tf.isSome && st.kw_extractor.isSome then
    (true, st)
  else
    match env.pipelineConstruction with
    | PyOutcome.raises _ => (false, ⟨none, none⟩)
    | PyOutcome.ok p =>
      match env.extractorConstruction with
      | PyOutcome.raises _ => (false, ⟨none, none⟩)
      | PyOutcome.ok kb =>
        (true, ⟨some p, some ⟨YAKE_LANGUAGE, YAKE_MAX_NGRAM_SIZE,
                              YAKE_DEDUP_THRESHOLD, YAKE_NUM_KEYWORDS, kb⟩⟩)

/-- Function `ml_logic.are_models_ready`: both globals are non-`None`. -/
def are_models_ready (st : HostState) : Bool :=
  st.summarization_pipeline_tf.isSome && st.kw_extractor.isSome

/-- Function `ml_logic.get_summary`: sentinel string if the host is not ready;
otherwise the pipeline's output, with any exception during inference caught
and converted to a sentinel string embedding the exception's type name. -/
def get_summary (st : HostState) (text : String)
    (max_length : Int := 150) (min_length : Int := 30) : String :=
  match st.summarization_pipeline_tf, st.kw_extractor with
  | some p, some _ =>
    match p text max_length min_length with
    | PyOutcome.ok summary => summary
    | PyOutcome.raises ty =>
      "Error: Could not generate summary due to an internal issue (" ++ ty ++ ")."
  | _, _ => "Error: Summarization model is not available at the moment."

/-- Function `ml_logic.get_tags`: single-element sentinel list if the host is not
ready; otherwise the keyword strings of the extractor's output with scores
discarded (`[kw[0] for kw in keywords_with_scores]`), with any exception
caught and converted to a single-element sentinel list. -/
def get_tags (st : HostState) (text : String) : List String :=
  match st.summarization_pipeline_tf, st.kw_extractor with
  | some _, some k =>
    match k.extract_keywords text with
    | PyOutcome.ok keywords_with_scores => keywords_with_scores.map Prod.fst
    | PyOutcome.raises ty =>
      ["Error: Could not extract tags due to an internal issue (" ++ ty ++ ")."]
  | _, _ => ["Error: Tagging model is not available at the moment."]

/-- An inference call made against the Model Host. -/
inductive HostCall : Type where
  | summarize (text : String) (maxLen minLen : Int)
  | extractTags (text : String)

/-- Stateful rendering of one inference call.  `get_summary` and `get_tags`
contain no `global` statement and assign neither module-level variable, so
the call leaves the host state unchanged and only produces a result. -/
def runCall (st : HostState) : HostCall → HostState × (String ⊕ List String)
  | HostCall.summarize t a b => (st, Sum.inl (get_summary st t a b))
  | HostCall.extractTags t => (st, Sum.inr (get_tags st t))

/-- The host state after a sequence of inference calls. -/
def runCalls (st : HostState) : List HostCall → HostState
  | [] => st
  | c :: cs => runCalls (runCall st c).1 cs

/-! The Request Gateway of `src/api/main.py`. -/

/-- Test whether one character list is an initial segment of another. -/
def listStartsWith : List Char → List Char → Bool
  | [], _ => true
  | _ :: _, [] => false
  | a :: as, b :: bs => a == b && listStartsWith as bs

/-- Test whether a character list occurs contiguously inside another. -/
def listOccursIn (pat : List Char) : List Char → Bool
  | [] => listStartsWith pat []
  | c :: rest => listStartsWith pat (c :: rest) || listOccursIn pat rest

/-- Python substring containment: `pat in s`. -/
def pyIn (pat s : String) : Bool := listOccursIn pat.data s.data

/-- Python prefix test: `s.startswith(pat)`.  Modelled from the spec: the
Gateway itself only ever uses `in` (containment), but the spec describes the
failure test as a check for a marker *prefix*; this definition exists to
state that reading. -/
def pyStartsWith (pat s : String) : Bool := listStartsWith pat.data s.data

/-- Python `sep.join(parts)`. -/
def pyJoin (sep : String) : List String → String
  | [] => ""
  | [a] => a
  | a :: rest => a ++ sep ++ pyJoin sep rest

/-- Request body `TextInput`, with the default length bounds of `main.py`. -/
structure TextInput : Type where
  text : String
  max_summary_length : Int := 150
  min_summary_length : Int := 30

/-- A raised `HTTPException`: HTTP status code plus detail message.  Its JSON
body is `{"detail": <detail>}` — it carries no other field. -/
structure HTTPException : Type where
  status_code : Nat
  detail : String
deriving DecidableEq

/-- Success body of `POST /summarize`. -/
structure SummaryResponse : Type where
  original_text : String
  summary : String
deriving DecidableEq

/-- Success body of `POST /extract_tags`. -/
structure TagsResponse : Type where
  original_text : String
  tags : List String
deriving DecidableEq

/-- Success body of `POST /analyze`. -/
structure AnalysisResponse : Type where
  original_text : String
  summary : String
  tags : List String
deriving DecidableEq

/-- Body of `GET /`. -/
structure MessageResponse : Type where
  message : String
deriving DecidableEq

/-- One inference operation invoked by an endpoint handler (a call to
`get_summary` or `get_tags`); endpoints are modelled together with the list
of inference operations they perform. -/
inductive InferenceOp : Type where
  | summaryCall (text : String) (maxLen minLen : Int)
  | tagsCall (text : String)
deriving DecidableEq

/-- The HTTP status of a handler outcome: 200 for a returned body, the
exception's status code for a raised `HTTPException`. -/
def statusOf {α : Type} : Except HTTPException α → Nat
  | Except.ok _ => 200
  | Except.error e => e.status_code

/-- The 503 detail used by all three POST endpoints. -/
def unavailableDetail : String := "ML models are not available. Please try again later."

/-- The gateway's failure test on a Model Host result string:
`"Error:" in summary` (Python substring containment). -/
def summary_failed (summary : String) : Bool := pyIn "Error:" summary

/-- The gateway's failure test on a tag list:
`tags and isinstance(tags, list) and tags and "Error:" in tags[0]` — the list
is non-empty and its first element contains the marker. -/
def tags_failed (tags : List String) : Bool :=
  !tags.isEmpty && pyIn "Error:" (tags.headD "")

/-- Endpoint `GET /`: always the fixed welcome message; no readiness check, no
inference call. -/
def root : Except HTTPException MessageResponse × List InferenceOp :=
  (Except.ok ⟨"Welcome to the Smart Content Analyzer API!"⟩, [])

/-- Endpoint `POST /summarize`: 503 before any inference if the host is not ready;
otherwise one `get_summary` call, then 500 with the sentinel as detail if the
result contains `"Error:"`, else 200 echoing the text. -/
def summarize_text_endpoint (st : HostState) (payload : TextInput) :
    Except HTTPException SummaryResponse × List InferenceOp :=
  if !are_models_ready st then
    (Except.error ⟨503, unavailableDetail⟩, [])
  else
    let summary := get_summary st payload.text payload.max_summary_length
      payload.min_summary_length
    if summary_failed summary then
      (Except.error ⟨500, summary⟩,
       [InferenceOp.summaryCall payload.text payload.max_summary_length
          payload.min_summary_length])
    else
      (Except.ok ⟨payload.text, summary⟩,
       [InferenceOp.summaryCall payload.text payload.max_summary_length
          payload.min_summary_length])

/-- Endpoint `POST /extract_tags`: 503 before any inference if the host is not ready;
otherwise one `get_tags` call, then 500 with `tags[0]` as detail if the list
is non-empty and its first element contains `"Error:"`, else 200. -/
def extract_tags_endpoint (st : HostState) (payload : TextInput) :
    Except HTTPException TagsResponse × List InferenceOp :=
  if !are_models_ready st then
    (Except.error ⟨503, unavailableDetail⟩, [])
  else
    let tags := get_tags st payload.text
    if tags_failed tags then
      (Except.error ⟨500, tags.headD ""⟩, [InferenceOp.tagsCall payload.text])
    else
      (Except.ok ⟨payload.text, tags⟩, [InferenceOp.tagsCall payload.text])

/-- Endpoint `POST /analyze`: 503 before any inference if the host is not ready;
otherwise both `get_summary` and `get_tags` are called unconditionally, each
failure contributes one entry to `error_details`, and a non-empty
`error_details` yields 500 with the entries joined by `"; "`, else 200. -/
def analyze_text_endpoint (st : HostState) (payload : TextInput) :
    Except HTTPException AnalysisResponse × List InferenceOp :=
  if !are_models_ready st then
    (Except.error ⟨503, unavailableDetail⟩, [])
  else
    let summary := get_summary st payload.text payload.max_summary_length
      payload.min_summary_length
    let tags := get_tags st payload.text
    let error_details : List String :=
      (if summary_failed summary then ["Summarization failed: " ++ summary] else []) ++
      (if tags_failed tags then ["Tagging failed: " ++ tags.headD ""] else [])
    if !error_details.isEmpty then
      (Except.error ⟨500, pyJoin "; " error_details⟩,
       [InferenceOp.summaryCall payload.text payload.max_summary_length
          payload.min_summary_length,
        InferenceOp.tagsCall payload.text])
    else
      (Except.ok ⟨payload.text, summary, tags⟩,
       [InferenceOp.summaryCall payload.text payload.max_summary_length
          payload.min_summary_length,
        InferenceOp.tagsCall payload.text])

/-- The `original_text` field of a `/summarize` response, when the response
has one (error responses do not). -/
def summaryOriginalText : Except HTTPException SummaryResponse → Option String
  | Except.ok r => some r.original_text
  | Except.error _ => none

/-- The `original_text` field of an `/extract_tags` response, when present. -/
def tagsOriginalText : Except HTTPException TagsResponse → Option String
  | Except.ok r => some r.original_text
  | Except.error _ => none

/-- The `original_text` field of an `/analyze` response, when present. -/
def analysisOriginalText : Except HTTPException AnalysisResponse → Option String
  | Except.ok r => some r.original_text
  | Except.error _ => none

/-! Concrete host states used to instantiate the theorems below. -/

/-- A summarization pipeline that always returns a fixed ordinary summary. -/
def pipeOk : SummPipeline := fun _ _ _ => PyOutcome.ok "A short summary."

/-- A summarization pipeline whose output mentions the marker mid-string
without starting with it. -/
def pipeMidMarker : SummPipeline :=
  fun _ _ _ => PyOutcome.ok "A harmless Error: mention"

/-- A summarization pipeline that always raises a `ValueError`. -/
def pipeRaise : SummPipeline := fun _ _ _ => PyOutcome.raises "ValueError"

/-- A keyword behaviour returning two ordinary keywords. -/
def kwOkTwo : KwBehavior :=
  fun _ => PyOutcome.ok [("lean", 1), ("proof", 2)]

/-- A keyword behaviour returning no keywords. -/
def kwOkEmpty : KwBehavior := fun _ => PyOutcome.ok []

/-- A YAKE extractor with the module configuration and the given behaviour. -/
def mkExtractor (b : KwBehavior) : KwExtractor :=
  ⟨YAKE_LANGUAGE, YAKE_MAX_NGRAM_SIZE, YAKE_DEDUP_THRESHOLD, YAKE_NUM_KEYWORDS, b⟩

/-- A ready host whose summarizer succeeds and whose tagger succeeds. -/
def stAllOk : HostState := ⟨some pipeOk, some (mkExtractor kwOkTwo)⟩

/-- A ready host whose summarizer output contains the marker mid-string. -/
def stMidMarker : HostState := ⟨some pipeMidMarker, some (mkExtractor kwOkTwo)⟩

/-- A ready host whose summarizer raises and whose tagger succeeds. -/
def stFailSummary : HostState := ⟨some pipeRaise, some (mkExtractor kwOkTwo)⟩

/-- A ready host whose summarizer succeeds and whose tagger returns no
keywords. -/
def stEmptyTags : HostState := ⟨some pipeOk, some (mkExtractor kwOkEmpty)⟩

/-- A default request payload. -/
def pSample : TextInput := ⟨"sample text", 150, 30⟩

/-! Claim theorems. -/

/-- Claim C1, counterexample: with the models not ready (the initial state),
the `GET /` endpoint does not respond 503 — it responds 200 — so it is not
the case that every endpoint responds 503 before `load_models` succeeds. -/
theorem c1_counterexample :
    are_models_ready initialState = false ∧
    statusOf ContentAnalyzer.root.1 = 200 ∧ statusOf ContentAnalyzer.root.1 ≠ 503 := by
  exact ⟨rfl, rfl, by decide⟩

/-- Claim C1 (amended): while `are_models_ready` is false, each of the three
POST endpoints responds 503 with the fixed detail and invokes no inference
operation (its call trace is empty); the `GET /` endpoint responds 200
regardless of readiness. -/
theorem c1_unready_post_endpoints_503_no_inference (st : HostState) (p : TextInput)
    (h : are_models_ready st = false) :
    summarize_text_endpoint st p = (Except.error ⟨503, unavailableDetail⟩, []) ∧
    extract_tags_endpoint st p = (Except.error ⟨503, unavailableDetail⟩, []) ∧
    analyze_text_endpoint st p = (Except.error ⟨503, unavailableDetail⟩, []) ∧
    statusOf ContentAnalyzer.root.1 = 200 := by
  refine ⟨?_, ?_, ?_, rfl⟩ <;>
    simp [summarize_text_endpoint, extract_tags_endpoint, analyze_text_endpoint, h]

/-- Claim C1, witness at the initial state. -/
theorem c1_witness :
    are_models_ready initialState = false ∧
    summarize_text_endpoint initialState pSample =
      (Except.error ⟨503, unavailableDetail⟩, []) ∧
    extract_tags_endpoint initialState pSample =
      (Except.error ⟨503, unavailableDetail⟩, []) ∧
    analyze_text_endpoint initialState pSample =
      (Except.error ⟨503, unavailableDetail⟩, []) :=
  ⟨rfl,
   (c1_unready_post_endpoints_503_no_inference initialState pSample rfl).1,
   (c1_unready_post_endpoints_503_no_inference initialState pSample rfl).2.1,
   (c1_unready_post_endpoints_503_no_inference initialState pSample rfl).2.2.1⟩

/-- Claim C2, counterexample: an error response carries no `original_text`
field at all (its body is only `{"detail": ...}`), so it is not the case
that every response contains `original_text` equal to the submitted text —
here the 503 from the unready host. -/
theorem c2_counterexample :
    summaryOriginalText (summarize_text_endpoint initialState ⟨"hello", 150, 30⟩).1 = none ∧
    summaryOriginalText (summarize_text_endpoint initialState ⟨"hello", 150, 30⟩).1 ≠
      some "hello" := by
  exact ⟨rfl, by decide⟩

/-- Claim C2 (amended): every success (200) response of the three POST
endpoints carries `original_text` equal byte-for-byte to the submitted text;
error responses carry no `original_text` field. -/
theorem c2_success_roundtrip (st : HostState) (p : TextInput) :
    (∀ r, (summarize_text_endpoint st p).1 = Except.ok r → r.original_text = p.text) ∧
    (∀ r, (extract_tags_endpoint st p).1 = Except.ok r → r.original_text = p.text) ∧
    (∀ r, (analyze_text_endpoint st p).1 = Except.ok r → r.original_text = p.text) ∧
    (∀ e, (summarize_text_endpoint st p).1 = Except.error e →
      summaryOriginalText (summarize_text_endpoint st p).1 = none) ∧
    (∀ e, (extract_tags_endpoint st p).1 = Except.error e →
      tagsOriginalText (extract_tags_endpoint st p).1 = none) ∧
    (∀ e, (analyze_text_endpoint st p).1 = Except.error e →
      analysisOriginalText (analyze_text_endpoint st p).1 = none) := by
  refine ⟨?_, ?_, ?_, ?_, ?_, ?_⟩
  · intro r hr
    obtain ⟨ot, sm⟩ := r
    by_cases hready : are_models_ready st
    · by_cases herr : summary_failed
        (get_summary st p.text p.max_summary_length p.min_summary_length)
      · simp [summarize_text_endpoint, hready, herr] at hr
      · simp [summarize_text_endpoint, hready, herr] at hr
        exact hr.1.symm
    · simp [Bool.not_eq_true] at hready
      simp [summarize_text_endpoint, hready] at hr
  · intro r hr
    obtain ⟨ot, tg⟩ := r
    by_cases hready : are_models_ready st
    · by_cases herr : tags_failed (get_tags st p.text)
      · simp [extract_tags_endpoint, hready, herr] at hr
      · simp [extract_tags_endpoint, hready, herr] at hr
        exact hr.1.symm
    · simp [Bool.not_eq_true] at hready
      simp [extract_tags_endpoint, hready] at hr
  · intro r hr
    obtain ⟨ot, sm, tg⟩ := r
    by_cases hready : are_models_ready st
    · by_cases hs : summary_failed
        (get_summary st p.text p.max_summary_length p.min_summary_length)
      · by_cases ht : tags_failed (get_tags st p.text)
        · simp [analyze_text_endpoint, hready, hs, ht] at hr
        · simp [analyze_text_endpoint, hready, hs, ht] at hr
      · by_cases ht : tags_failed (get_tags st p.text)
        · simp [analyze_text_endpoint, hready, hs, ht] at hr
        · simp [analyze_text_endpoint, hready, hs, ht] at hr
          exact hr.1.symm
    · simp [Bool.not_eq_true] at hready
      simp [analyze_text_endpoint, hready] at hr
  · intro e hr
    rw [summaryOriginalText.eq_def, hr]
  · intro e hr
    rw [tagsOriginalText.eq_def, hr]
  · intro e hr
    rw [analysisOriginalText.eq_def, hr]

/-- Claim C2, witness: a concrete ready host where all three endpoints
succeed and echo the submitted text. -/
theorem c2_witness :
    (summarize_text_endpoint stAllOk pSample).1 =
      Except.ok ⟨"sample text", "A short summary."⟩ ∧
    SummaryResponse.original_text ⟨"sample text", "A short summary."⟩ = "sample text" :=
  ⟨rfl, (c2_success_roundtrip stAllOk pSample).1 ⟨"sample text", "A short summary."⟩ rfl⟩

/-- Claim C3: on a ready host, when the summarizer result fails the sentinel
test, the analyze endpoint still invokes both operations (its trace holds
both calls); if the tag result does not fail, the response is 500 with a
detail naming only the summarization failure, and if the tag result also
fails, the detail names both failures joined by the separator specified by
the code, the string of a semicolon and a space. -/
theorem c3_analyze_failure_details (st : HostState) (p : TextInput)
    (hready : are_models_ready st = true)
    (hs : summary_failed
      (get_summary st p.text p.max_summary_length p.min_summary_length) = true) :
    (tags_failed (get_tags st p.text) = false →
      (analyze_text_endpoint st p).1 = Except.error ⟨500,
        "Summarization failed: " ++
          get_summary st p.text p.max_summary_length p.min_summary_length⟩) ∧
    (tags_failed (get_tags st p.text) = true →
      (analyze_text_endpoint st p).1 = Except.error ⟨500,
        ("Summarization failed: " ++
          get_summary st p.text p.max_summary_length p.min_summary_length) ++ "; " ++
        ("Tagging failed: " ++ (get_tags st p.text).headD "")⟩) ∧
    (analyze_text_endpoint st p).2 =
      [InferenceOp.summaryCall p.text p.max_summary_length p.min_summary_length,
       InferenceOp.tagsCall p.text] := by
  refine ⟨?_, ?_, ?_⟩
  · intro ht
    simp [analyze_text_endpoint, hready, hs, ht, pyJoin]
  · intro ht
    simp [analyze_text_endpoint, hready, hs, ht, pyJoin]
  · by_cases ht : tags_failed (get_tags st p.text) <;>
      simp [analyze_text_endpoint, hready, hs, ht]

/-- Claim C3, witness: a ready host whose summarizer raises (so its result
is the sentinel) and whose tagger succeeds. -/
theorem c3_witness :
    (analyze_text_endpoint stFailSummary pSample).1 = Except.error ⟨500,
      "Summarization failed: " ++
        get_summary stFailSummary "sample text" 150 30⟩ ∧
    (analyze_text_endpoint stFailSummary pSample).2 =
      [InferenceOp.summaryCall "sample text" 150 30,
       InferenceOp.tagsCall "sample text"] :=
  ⟨(c3_analyze_failure_details stFailSummary pSample rfl rfl).1 rfl,
   (c3_analyze_failure_details stFailSummary pSample rfl rfl).2.2⟩

/-- Claim C4, counterexample: a ready host whose summarizer returns a string
that merely mentions the marker mid-string — it does not begin with the
marker, yet the gateway responds 500, so the failure test is not a prefix
test. -/
theorem c4_counterexample :
    pyStartsWith "Error:" (get_summary stMidMarker "sample text" 150 30) = false ∧
    statusOf (summarize_text_endpoint stMidMarker pSample).1 = 500 := by
  exact ⟨rfl, rfl⟩

/-- Claim C4 (amended): on a ready host the gateway decides failure by
substring containment, not by a prefix test: the summarize endpoint responds
500 exactly when the summary string contains the marker `"Error:"` (and 200
otherwise), and the extract-tags endpoint responds 500 exactly when the tag
list is non-empty and its first element contains the marker (and 200
otherwise). -/
theorem c4_sentinel_detection_is_containment (st : HostState) (p : TextInput)
    (hready : are_models_ready st = true) :
    statusOf (summarize_text_endpoint st p).1 =
      (if summary_failed
          (get_summary st p.text p.max_summary_length p.min_summary_length) = true
        then 500 else 200) ∧
    statusOf (extract_tags_endpoint st p).1 =
      (if tags_failed (get_tags st p.text) = true then 500 else 200) := by
  constructor
  · by_cases hs : summary_failed
      (get_summary st p.text p.max_summary_length p.min_summary_length) <;>
      simp [summarize_text_endpoint, hready, hs, statusOf]
  · by_cases ht : tags_failed (get_tags st p.text) <;>
      simp [extract_tags_endpoint, hready, ht, statusOf]

/-- Claim C4, witness at a host whose summarizer output contains the marker
mid-string and whose tagger succeeds. -/
theorem c4_witness :
    statusOf (summarize_text_endpoint stMidMarker pSample).1 =
      (if summary_failed (get_summary stMidMarker "sample text" 150 30) = true
        then 500 else 200) ∧
    statusOf (extract_tags_endpoint stMidMarker pSample).1 =
      (if tags_failed (get_tags stMidMarker "sample text") = true then 500 else 200) :=
  c4_sentinel_detection_is_containment stMidMarker pSample rfl

/-- A load environment whose pipeline construction raises an `OSError`. -/
def envPipeRaises : LoadEnv := ⟨PyOutcome.raises "OSError", PyOutcome.ok kwOkTwo⟩

/-- A load environment in which both construction steps succeed. -/
def envAllOk : LoadEnv := ⟨PyOutcome.ok pipeOk, PyOutcome.ok kwOkTwo⟩

/-- Claim C5: if an exception is raised during either construction step of a
`load_models` call that actually constructs (the host was not already fully
loaded), then the call returns False with both sub-models reset to `None`
(so `are_models_ready` is false afterwards); `load_models` is a total
function, so no exception reaches the caller. -/
theorem c5_load_failure_resets (env : LoadEnv) (st : HostState)
    (hnot : (st.summarization_pipeline_tf.isSome && st.kw_extractor.isSome) = false)
    (hexn : (∃ e, env.pipelineConstruction = PyOutcome.raises e) ∨
            (∃ pl e, env.pipelineConstruction = PyOutcome.ok pl ∧
                     env.extractorConstruction = PyOutcome.raises e)) :
    load_models env st = (false, initialState) ∧
    are_models_ready (load_models env st).2 = false ∧
    (load_models env st).1 = false := by
  have h : load_models env st = (false, initialState) := by
    rcases hexn with ⟨e, he⟩ | ⟨pl, e, hp, he⟩
    · simp [load_models, hnot, he, initialState]
    · simp [load_models, hnot, hp, he, initialState]
  exact ⟨h, by rw [h]; rfl, by rw [h]⟩

/-- Claim C5, witness: the pipeline construction raises at the initial
state. -/
theorem c5_witness :
    load_models envPipeRaises initialState = (false, initialState) ∧
    are_models_ready (load_models envPipeRaises initialState).2 = false :=
  ⟨(c5_load_failure_resets envPipeRaises initialState rfl
      (Or.inl ⟨"OSError", rfl⟩)).1,
   (c5_load_failure_resets envPipeRaises initialState rfl
      (Or.inl ⟨"OSError", rfl⟩)).2.1⟩

/-- Claim C6: `get_summary` is a total function — it never propagates an
exception: when the host is not ready it returns the fixed unavailability
sentinel; when the pipeline raises, it returns the sentinel embedding the
exception's type name; and in every case its result is the pipeline's normal
output or one of those two sentinel shapes. -/
theorem c6_get_summary_sentinels (st : HostState) (text : String) (maxl minl : Int) :
    (are_models_ready st = false →
      get_summary st text maxl minl =
        "Error: Summarization model is not available at the moment.") ∧
    (∀ pl k ty, st.summarization_pipeline_tf = some pl → st.kw_extractor = some k →
      pl text maxl minl = PyOutcome.raises ty →
      get_summary st text maxl minl =
        "Error: Could not generate summary due to an internal issue (" ++ ty ++ ").") ∧
    ((∃ pl s, st.summarization_pipeline_tf = some pl ∧
        pl text maxl minl = PyOutcome.ok s ∧ get_summary st text maxl minl = s) ∨
      get_summary st text maxl minl =
        "Error: Summarization model is not available at the moment." ∨
      (∃ ty, get_summary st text maxl minl =
        "Error: Could not generate summary due to an internal issue (" ++ ty ++ ").")) := by
  obtain ⟨po, ko⟩ := st
  refine ⟨?_, ?_, ?_⟩
  · intro h
    cases po <;> cases ko <;> simp_all [are_models_ready, get_summary]
  · intro pl k ty hp hk hraise
    cases po <;> cases ko <;> simp_all [get_summary]
  · cases po with
    | none => cases ko <;> exact Or.inr (Or.inl rfl)
    | some pl =>
      cases ko with
      | none => exact Or.inr (Or.inl rfl)
      | some k =>
        cases hcall : pl text maxl minl with
        | ok s => exact Or.inl ⟨pl, s, rfl, hcall, by simp [get_summary, hcall]⟩
        | raises ty => exact Or.inr (Or.inr ⟨ty, by simp [get_summary, hcall]⟩)

/-- Claim C6, witness: the unavailability sentinel at the initial state and
the exception-embedding sentinel at a host whose pipeline raises a
`ValueError`. -/
theorem c6_witness :
    get_summary initialState "sample text" 150 30 =
      "Error: Summarization model is not available at the moment." ∧
    get_summary stFailSummary "sample text" 150 30 =
      "Error: Could not generate summary due to an internal issue (" ++
        "ValueError" ++ ")." :=
  ⟨(c6_get_summary_sentinels initialState "sample text" 150 30).1 rfl,
   (c6_get_summary_sentinels stFailSummary "sample text" 150 30).2.1 pipeRaise
     (mkExtractor kwOkTwo) "ValueError" rfl rfl rfl⟩

/-- Claim C7: after a `load_models` call that returned True, the readiness
query returns true, and any subsequent `load_models` call — whatever the
outcomes of its construction environment — returns True and leaves the state
exactly as it was (neither sub-model is reconstructed). -/
theorem c7_load_success_idempotent (env env2 : LoadEnv) (st : HostState)
    (hsucc : (load_models env st).1 = true) :
    are_models_ready (load_models env st).2 = true ∧
    load_models env2 (load_models env st).2 = (true, (load_models env st).2) := by
  by_cases hg : (st.summarization_pipeline_tf.isSome && st.kw_extractor.isSome) = true
  · have hres : load_models env st = (true, st) := by simp [load_models, hg]
    rw [hres]
    exact ⟨hg, by simp [load_models, hg]⟩
  · cases hp : env.pipelineConstruction with
    | raises e =>
      have h : load_models env st = (false, initialState) := by
        simp [load_models, hg, hp, initialState]
      rw [h] at hsucc
      simp at hsucc
    | ok pl =>
      cases hk : env.extractorConstruction with
      | raises e =>
        have h : load_models env st = (false, initialState) := by
          simp [load_models, hg, hp, hk, initialState]
        rw [h] at hsucc
        simp at hsucc
      | ok kb =>
        have hres : load_models env st = (true, ⟨some pl, some (mkExtractor kb)⟩) := by
          simp [load_models, hg, hp, hk, mkExtractor]
        rw [hres]
        exact ⟨rfl, by simp [load_models]⟩

/-- Claim C7, witness: a successful load from the initial state followed by
a second `load_models` call with a raising environment. -/
theorem c7_witness :
    are_models_ready (load_models envAllOk initialState).2 = true ∧
    load_models envPipeRaises (load_models envAllOk initialState).2 =
      (true, (load_models envAllOk initialState).2) :=
  c7_load_success_idempotent envAllOk envPipeRaises initialState rfl

/-- Claim C8: on a ready host whose extractor returns normally, `get_tags`
is exactly the keyword strings of the extractor's output with scores
discarded and order preserved; given the extractor's contract of returning
at most its configured `top` keywords and the configuration `top = 10` set
at initialization, the result has length at most 10. -/
theorem c8_get_tags_projection_and_cap (st : HostState) (text : String)
    (pl : SummPipeline) (k : KwExtractor) (kws : List (String × Rat))
    (hp : st.summarization_pipeline_tf = some pl)
    (hk : st.kw_extractor = some k)
    (hrun : k.extract_keywords text = PyOutcome.ok kws)
    (hcap : kws.length ≤ k.top)
    (htop : k.top = YAKE_NUM_KEYWORDS) :
    get_tags st text = kws.map Prod.fst ∧ (get_tags st text).length ≤ 10 := by
  have h1 : get_tags st text = kws.map Prod.fst := by
    simp [get_tags, hp, hk, hrun]
  refine ⟨h1, ?_⟩
  rw [h1, List.length_map]
  rw [htop] at hcap
  exact hcap

/-- Claim C8, witness: a ready host whose extractor returns two scored
keywords. -/
theorem c8_witness :
    get_tags stAllOk "sample text" = ["lean", "proof"] ∧
    (get_tags stAllOk "sample text").length ≤ 10 :=
  c8_get_tags_projection_and_cap stAllOk "sample text" pipeOk
    (mkExtractor kwOkTwo) [("lean", 1), ("proof", 2)] rfl rfl rfl
    (by decide) rfl

/-- Claim C9: on a ready host an empty tag sequence is never treated as a
failure: the extract-tags endpoint responds 200 with `tags = []`, and the
analyze endpoint does so as well whenever the summary also passes the
failure test. -/
theorem c9_empty_tags_success (st : HostState) (p : TextInput)
    (hready : are_models_ready st = true)
    (hempty : get_tags st p.text = []) :
    (extract_tags_endpoint st p).1 = Except.ok ⟨p.text, []⟩ ∧
    (summary_failed (get_summary st p.text p.max_summary_length p.min_summary_length)
        = false →
      (analyze_text_endpoint st p).1 = Except.ok
        ⟨p.text, get_summary st p.text p.max_summary_length p.min_summary_length, []⟩) := by
  have ht : tags_failed ([] : List String) = false := rfl
  constructor
  · simp [extract_tags_endpoint, hready, ht, hempty]
  · intro hs
    simp [analyze_text_endpoint, hready, hs, ht, hempty]

/-- Claim C9, witness: a ready host whose extractor returns no keywords and
whose summarizer succeeds. -/
theorem c9_witness :
    (extract_tags_endpoint stEmptyTags pSample).1 = Except.ok ⟨"sample text", []⟩ ∧
    (analyze_text_endpoint stEmptyTags pSample).1 =
      Except.ok ⟨"sample text", "A short summary.", []⟩ :=
  ⟨(c9_empty_tags_success stEmptyTags pSample rfl rfl).1,
   (c9_empty_tags_success stEmptyTags pSample rfl rfl).2 rfl⟩

/-- Claim C10: `get_summary` and `get_tags` assign neither module-level
model reference, so any sequence of inference calls leaves the host state —
and therefore the value of `are_models_ready` — unchanged. -/
theorem c10_inference_calls_preserve_state (st : HostState) (calls : List HostCall) :
    runCalls st calls = st ∧
    are_models_ready (runCalls st calls) = are_models_ready st := by
  have h : runCalls st calls = st := by
    induction calls with
    | nil => rfl
    | cons c cs ih =>
      cases c with
      | summarize t a b => simpa [runCalls, runCall] using ih
      | extractTags t => simpa [runCalls, runCall] using ih
  exact ⟨h, by rw [h]⟩

end ContentAnalyzer
